import Mathlib

/-!
Shallow embedding of `luaward`'s isolated worker driver
(`src/luaward/isolated.py`, class `IsolatedLuaVM`) and of the sandbox
policy of its embedded VM.  The parent process's result-wait loop, the
worker's command loop, the callback proxy wait, the isolation startup
sequence and the public operations are translated into pure Lean
functions over explicit message lists (the two multiprocessing queues
become lists of tagged messages consumed in FIFO order).
-/

namespace Luaward

/-- Host (Python) values carried in queue messages.  `hostObj` stands for a
host object that cannot be serialized for queue transport (e.g. a lambda or
an open file); every other constructor is serializable. -/
inductive HVal where
  | pyNone
  | bool (b : Bool)
  | int (n : Int)
  | str (s : String)
  | list (xs : List HVal)
  | hostObj (tag : String)
deriving Repr

mutual
/-- Whether a host value survives queue serialization (pickling happens in
the sending process when a message is put on a multiprocessing queue). -/
def picklable : HVal → Bool
  | .hostObj _ => false
  | .list xs => picklableList xs
  | _ => true

def picklableList : List HVal → Bool
  | [] => true
  | x :: xs => picklable x && picklableList xs
end

/-- Command messages, parent → worker (`cmd_queue`). -/
inductive Cmd where
  | EXECUTE (script : String)
  | CALL (name : String) (args : List HVal)
  | FUNCTION_EXISTS (name : String)
  | CALLBACK_RESULT (v : HVal)
  | STOP
deriving Repr

/-- Result messages, worker → parent (`result_queue`).  `UNKNOWN` stands for
a message whose status tag is none of the four recognized strings. -/
inductive Res where
  | SUCCESS (v : HVal)
  | ERROR (msg : String)
  | CRITICAL (msg : String)
  | CALLBACK (name : String) (args : List HVal)
  | UNKNOWN (status : String)
deriving Repr

/-- How a parent-side wait for a result ends (`_wait_for_result`):
a returned payload, or one of the three exception classes it raises,
or `blocked` when the modelled queue runs out of messages. -/
inductive WaitOutcome where
  | ret (v : HVal)
  | runtimeError (msg : String)
  | systemError (msg : String)
  | valueError (msg : String)
  | blocked
deriving Repr

/-- Callback registry of the handle: `self.callbacks`, a mapping from name
to host function.  A host callback either returns a value or raises an
exception carrying a message string. -/
def CbTable := List (String × (List HVal → Except String HVal))

/-- Dictionary lookup `self.callbacks[func_name]` guarded by
`func_name in self.callbacks`. -/
def lookupCb : CbTable → String → Option (List HVal → Except String HVal)
  | [], _ => Option.none
  | (k, f) :: rest, n => if k = n then Option.some f else lookupCb rest n

/-- State of one parent-side wait: the `CALLBACK_RESULT` commands it sent
while servicing callbacks, how it ended, and the result messages left
unconsumed on the queue. -/
structure WaitState where
  sent : List Cmd
  out : WaitOutcome
  rem : List Res
deriving Repr

/-- `IsolatedLuaVM._wait_for_result`: pop result messages until a terminal
status.  `SUCCESS` returns the payload; `ERROR` raises `RuntimeError` with
the worker's string; `CRITICAL` raises `SystemError`; an unknown status
raises `ValueError`; a `CALLBACK` is serviced by invoking the registered
host callback (its return value, or an error string when it raises or when
the name is not registered, is sent back as `CALLBACK_RESULT`) and the wait
resumes. -/
def waitForResult (cbs : CbTable) : List Res → WaitState
  | [] => ⟨[], .blocked, []⟩
  | r :: rest =>
    match r with
    | .SUCCESS v => ⟨[], .ret v, rest⟩
    | .ERROR m => ⟨[], .runtimeError m, rest⟩
    | .CRITICAL m => ⟨[], .systemError ("Worker crashed: " ++ m), rest⟩
    | .UNKNOWN s => ⟨[], .valueError ("Unknown status: " ++ s), rest⟩
    | .CALLBACK name args =>
      let reply : HVal :=
        match lookupCb cbs name with
        | Option.some f =>
          match f args with
          | .ok v => v
          | .error e => .str ("Error in callback " ++ name ++ ": " ++ e)
        | Option.none => .str ("Callback '" ++ name ++ "' not found")
      let ws := waitForResult cbs rest
      ⟨Cmd.CALLBACK_RESULT reply :: ws.sent, ws.out, ws.rem⟩

/-- `IsolatedLuaVM.execute`: put one `EXECUTE` command, then wait. -/
def executeOp (cbs : CbTable) (script : String) (results : List Res) :
    List Cmd × WaitState :=
  (Cmd.EXECUTE script :: (waitForResult cbs results).sent,
   waitForResult cbs results)

/-- Modelled from the spec: the transport on the command queue between the
parent and the worker (provided by the host platform's multiprocessing
queue, outside this repository's sources) serializes a message in the
sending process; a message whose payload is not serializable raises there
and is never transmitted, so marshalling failures on the parent's call
path fail locally before a command is issued. -/
def cmdTransmittable : Cmd → Bool
  | .CALL _ args => picklableList args
  | .CALLBACK_RESULT v => picklable v
  | _ => true

/-- `IsolatedLuaVM.call`: put one `CALL` command (serialized in the parent),
then wait.  The first component lists the commands actually transmitted to
the worker; the second is `none` when serialization failed locally. -/
def callOp (cbs : CbTable) (name : String) (args : List HVal)
    (results : List Res) : List Cmd × Option WaitState :=
  if cmdTransmittable (Cmd.CALL name args) then
    (Cmd.CALL name args :: (waitForResult cbs results).sent,
     Option.some (waitForResult cbs results))
  else
    ([], Option.none)

/-- `IsolatedLuaVM.function_exists`: put one `FUNCTION_EXISTS` command,
then wait. -/
def functionExistsOp (cbs : CbTable) (name : String) (results : List Res) :
    List Cmd × WaitState :=
  (Cmd.FUNCTION_EXISTS name :: (waitForResult cbs results).sent,
   waitForResult cbs results)

/-- Parent-side actions of `IsolatedLuaVM.close`. -/
inductive ParentAction where
  | send (c : Cmd)
  | joinChild
deriving Repr

/-- `IsolatedLuaVM.close`: put a `STOP` command, then join the worker. -/
def closeActions : List ParentAction :=
  [ParentAction.send Cmd.STOP, ParentAction.joinChild]

/-- An error escaping a VM dispatch in the worker: a Python `Exception`
(caught by the per-command handler) or a `SystemExit` (not an `Exception`
subclass, so it escapes the per-command handler and reaches the outer
`except SystemExit` of the command loop). -/
inductive WorkerErr where
  | exc (msg : String)
  | sysExit (msg : String)
deriving Repr

/-- Abstract interface of the embedded `_luaward.LuaVM` object as used by
the command loop: each operation mutates the VM state and either returns
or raises.  The C extension itself is outside the worker-driver source, so
the loop is verified for every behaviour of this interface. -/
structure VMOps (σ : Type) where
  exec : σ → String → σ × Except WorkerErr Unit
  call : σ → String → List HVal → σ × Except WorkerErr HVal
  fnEx : σ → String → σ × Except WorkerErr Bool

/-- A message arriving on the worker's command queue: a well-formed command,
or `bad` for a message whose reception or payload unpacking raises (this
happens outside the per-command `try` blocks of the loop). -/
inductive WireCmd where
  | ok (c : Cmd)
  | bad (msg : String)
deriving Repr

/-- How the worker's command loop ends. -/
inductive LoopExit where
  | stopped
  | sysExited
  | crashed
  | waiting
deriving Repr

/-- `IsolatedLuaVM._command_loop`: pop commands in FIFO order.  `STOP`
breaks out with no result.  `EXECUTE`/`CALL`/`FUNCTION_EXISTS` dispatch
into the VM inside a per-command handler: success posts `SUCCESS`
(with `None`, the call result, or the boolean), a raised `Exception` posts
`ERROR` with its string and the loop continues; a `SystemExit` escapes the
per-command handler and breaks the loop silently.  A stray
`CALLBACK_RESULT` is logged and skipped.  An error outside the per-command
handlers posts `CRITICAL` and breaks. -/
def commandLoop (ops : VMOps σ) : σ → List WireCmd → List Res × LoopExit
  | _, [] => ([], .waiting)
  | st, wc :: rest =>
    match wc with
    | .bad m => ([Res.CRITICAL m], .crashed)
    | .ok c =>
      match c with
      | .STOP => ([], .stopped)
      | .EXECUTE script =>
        match (ops.exec st script).2 with
        | .ok _ =>
          let r := commandLoop ops (ops.exec st script).1 rest
          (Res.SUCCESS HVal.pyNone :: r.1, r.2)
        | .error (.exc m) =>
          let r := commandLoop ops (ops.exec st script).1 rest
          (Res.ERROR m :: r.1, r.2)
        | .error (.sysExit _) => ([], .sysExited)
      | .CALL name args =>
        match (ops.call st name args).2 with
        | .ok v =>
          let r := commandLoop ops (ops.call st name args).1 rest
          (Res.SUCCESS v :: r.1, r.2)
        | .error (.exc m) =>
          let r := commandLoop ops (ops.call st name args).1 rest
          (Res.ERROR m :: r.1, r.2)
        | .error (.sysExit _) => ([], .sysExited)
      | .FUNCTION_EXISTS name =>
        match (ops.fnEx st name).2 with
        | .ok b =>
          let r := commandLoop ops (ops.fnEx st name).1 rest
          (Res.SUCCESS (HVal.bool b) :: r.1, r.2)
        | .error (.exc m) =>
          let r := commandLoop ops (ops.fnEx st name).1 rest
          (Res.ERROR m :: r.1, r.2)
        | .error (.sysExit _) => ([], .sysExited)
      | .CALLBACK_RESULT _ => commandLoop ops st rest

/-- How one blocking wait inside a callback proxy ends. -/
inductive ProxyOutcome where
  | result (v : HVal)
  | raisedSysExit (msg : String)
  | blocked
deriving Repr

/-- The wait loop inside a proxy made by `IsolatedLuaVM._create_proxies`:
after posting `CALLBACK`, pop commands until a `CALLBACK_RESULT` (return
its payload) or a `STOP` (raise `SystemExit`); any other command is
dropped and the wait continues. -/
def proxyWait : List Cmd → ProxyOutcome × List Cmd
  | [] => (.blocked, [])
  | c :: rest =>
    match c with
    | .CALLBACK_RESULT v => (.result v, rest)
    | .STOP => (.raisedSysExit "Worker stopped during callback", rest)
    | _ => proxyWait rest

/-- A proxy invocation: post one `CALLBACK` result message, then run the
wait loop on the command queue. -/
def callbackProxy (name : String) (args : List HVal) (cmds : List Cmd) :
    Res × ProxyOutcome × List Cmd :=
  (Res.CALLBACK name args, (proxyWait cmds).1, (proxyWait cmds).2)

/-- Which of the OS calls attempted during `_setup_isolation` fail in the
current environment (each failure raises in the corresponding `try`). -/
structure SysEnv where
  unshareFails : Bool
  setrlimitFails : Bool
  setgidFails : Bool
  setuidFails : Bool
  lockdownFails : Bool
deriving Repr

/-- One step of the isolation startup sequence, with whether the underlying
OS call succeeded. -/
inductive IsoEvent where
  | unshareNet (ok : Bool)
  | setCpuLimit (seconds : Int) (ok : Bool)
  | setgidCall (g : Int) (ok : Bool)
  | setuidCall (u : Int) (ok : Bool)
  | lockdownCall (ok : Bool)
deriving Repr, DecidableEq

/-- Python truthiness of an optional integer option: `None` and `0` are
falsy (`if cpu_limit:`, `if mem_limit:`, `if instruction_limit:`). -/
def pyTruthy : Option Int → Bool
  | Option.none => false
  | Option.some n => n != 0

/-- `IsolatedLuaVM._setup_isolation`: in order — network namespace unshare
when `full_isolation` (failure logged), CPU rlimit when `cpu_limit` is
truthy (failure logged), `setgid` when `gid is not None` (failure logged),
`setuid` when `uid is not None` (failure logged), and seccomp lockdown when
`full_isolation` (failure re-raised).  Returns the trace of attempted
steps and whether the function raised. -/
def setupIsolation (env : SysEnv) (fullIsolation : Bool) (cpuLimit : Option Int)
    (uid gid : Option Int) : List IsoEvent × Bool :=
  let e1 : List IsoEvent :=
    if fullIsolation then [IsoEvent.unshareNet (!env.unshareFails)] else []
  let e2 : List IsoEvent :=
    match cpuLimit with
    | Option.some n =>
      if n != 0 then [IsoEvent.setCpuLimit n (!env.setrlimitFails)] else []
    | Option.none => []
  let e3 : List IsoEvent :=
    match gid with
    | Option.some g => [IsoEvent.setgidCall g (!env.setgidFails)]
    | Option.none => []
  let e4 : List IsoEvent :=
    match uid with
    | Option.some u => [IsoEvent.setuidCall u (!env.setuidFails)]
    | Option.none => []
  if fullIsolation then
    if env.lockdownFails then
      (e1 ++ e2 ++ e3 ++ e4 ++ [IsoEvent.lockdownCall false], true)
    else
      (e1 ++ e2 ++ e3 ++ e4 ++ [IsoEvent.lockdownCall true], false)
  else
    (e1 ++ e2 ++ e3 ++ e4, false)

/-- The keyword arguments `_init_vm` passes to the `_luaward.LuaVM`
constructor: `memory_limit` and `instruction_limit` are included only when
truthy (so `0` behaves like unset). -/
structure VMKwargs where
  memoryLimit : Option Int
  instructionLimit : Option Int
deriving Repr, DecidableEq

/-- `IsolatedLuaVM._init_vm` keyword-argument construction. -/
def initVMKwargs (memLimit instrLimit : Option Int) : VMKwargs :=
  { memoryLimit := if pyTruthy memLimit then memLimit else Option.none
    instructionLimit := if pyTruthy instrLimit then instrLimit else Option.none }

/-- How the worker process ends. -/
inductive WorkerExit where
  | crashedInIsolation
  | initFailed
  | loopEnded (e : LoopExit)
deriving Repr

/-- `IsolatedLuaVM._worker_loop`: run `_setup_isolation` (NOT inside any
`try`: an exception raised there propagates out and kills the process with
nothing posted), then construct the VM inside a `try` (a failure posts
`CRITICAL` and returns), then run the command loop.  `initRes` abstracts
the `_init_vm` outcome: the VM interface and initial state, or the raised
exception's string. -/
def workerLoop (env : SysEnv) (initRes : Except String (VMOps σ × σ))
    (fullIsolation : Bool) (cpuLimit : Option Int) (uid gid : Option Int)
    (cmds : List WireCmd) : List Res × WorkerExit :=
  if (setupIsolation env fullIsolation cpuLimit uid gid).2 then
    ([], .crashedInIsolation)
  else
    match initRes with
    | .error e => ([Res.CRITICAL ("Init failed: " ++ e)], .initFailed)
    | .ok (ops, st) =>
      let r := commandLoop ops st cmds
      (r.1, .loopEnded r.2)

/-- Values of the embedded Lua state as observed by evaluating a global
name in a script. -/
inductive LuaVal where
  | nil
  | boolean (b : Bool)
  | number (n : Int)
  | str (s : String)
  | table (id : Nat)
  | func (id : Nat)
deriving Repr, DecidableEq

/-- The names the sandbox removes from the global environment. -/
def removedGlobals : List String :=
  ["os", "io", "debug", "package", "coroutine",
   "dofile", "load", "loadfile", "loadstring", "require", "module",
   "collectgarbage", "getmetatable", "setmetatable",
   "rawget", "rawset", "rawequal", "rawlen"]

/-- Modelled from the spec: the sandbox installation performed inside the
`_luaward` C extension (whose source is outside the worker-driver module)
sets every name of the removed set to absent in the interpreter's global
environment, so that evaluating it from a script yields nil; other globals
are untouched by this step. -/
def installSandbox (g : String → LuaVal) : String → LuaVal :=
  fun n => if removedGlobals.contains n then LuaVal.nil else g n

/-- Evaluating a bare global name in a script reads the global
environment. -/
def evalGlobal (g : String → LuaVal) (n : String) : LuaVal := g n

/-- Whether a result message is an in-flight `CALLBACK` request (all other
statuses terminate a parent-side wait). -/
def isCallbackRes : Res → Bool
  | .CALLBACK _ _ => true
  | _ => false

/-- Whether an isolation step is one of the two credential-drop calls. -/
def isCredEvent : IsoEvent → Bool
  | .setgidCall _ _ => true
  | .setuidCall _ _ => true
  | _ => false

/-- A VM interface over a trivial state whose three operations return the
three fixed outcomes; used to instantiate the loop theorems on concrete
inputs. -/
def testVM (re : Except WorkerErr Unit) (rc : Except WorkerErr HVal)
    (rf : Except WorkerErr Bool) : VMOps Unit where
  exec := fun st _ => (st, re)
  call := fun st _ _ => (st, rc)
  fnEx := fun st _ => (st, rf)

/-- A concrete callback table: `f` returns the integer 7, `g` raises with
message `boom`. -/
def cbsTest : CbTable :=
  [("f", fun _ => Except.ok (HVal.int 7)),
   ("g", fun _ => Except.error "boom")]

/-- C2: after sandbox installation, evaluating any name of the removed set
in a script yields nil, whatever the prior global environment bound it
to. -/
theorem c2_removed_names_evaluate_to_nil (g : String → LuaVal) (n : String)
    (h : removedGlobals.contains n = true) :
    evalGlobal (installSandbox g) n = LuaVal.nil := by
  have h' : n ∈ removedGlobals := by simpa using h
  simp [evalGlobal, installSandbox, h']

/-- Witness for C2 at the name `os` over a nonempty prior environment. -/
theorem c2_witness :
    removedGlobals.contains "os" = true ∧
    evalGlobal (installSandbox fun _ => LuaVal.table 0) "os" = LuaVal.nil :=
  ⟨by decide, c2_removed_names_evaluate_to_nil (fun _ => LuaVal.table 0) "os" (by decide)⟩

/-- C3: a `call` whose arguments contain a non-marshallable host value
fails locally in the parent: no command at all is transmitted (in
particular no `CALL` command ever reaches the worker) and the wait never
starts. -/
theorem c3_unmarshallable_call_fails_locally (cbs : CbTable) (name : String)
    (args : List HVal) (results : List Res)
    (h : picklableList args = false) :
    callOp cbs name args results = ([], Option.none) ∧
    Cmd.CALL name args ∉ (callOp cbs name args results).1 := by
  constructor
  · simp [callOp, cmdTransmittable, h]
  · simp [callOp, cmdTransmittable, h]

/-- Witness for C3: calling with a host lambda among the arguments. -/
theorem c3_witness :
    callOp cbsTest "mul" [HVal.int 6, HVal.hostObj "lambda"] [] =
      ([], Option.none) :=
  (c3_unmarshallable_call_fails_locally cbsTest "mul"
    [HVal.int 6, HVal.hostObj "lambda"] [] (by decide)).1

/-- C9: the parent maps result statuses to distinct outcomes: `SUCCESS`
returns its payload, `ERROR` raises `RuntimeError` with exactly the
worker's string, `CRITICAL` raises `SystemError`, any other status raises
`ValueError`; and for `execute` the worker's success payload is `None`. -/
theorem c9_parent_status_mapping {σ : Type} (cbs : CbTable) (v : HVal)
    (m s : String) (rest : List Res) :
    waitForResult cbs (Res.SUCCESS v :: rest) = ⟨[], .ret v, rest⟩ ∧
    waitForResult cbs (Res.ERROR m :: rest) = ⟨[], .runtimeError m, rest⟩ ∧
    waitForResult cbs (Res.CRITICAL m :: rest) =
      ⟨[], .systemError ("Worker crashed: " ++ m), rest⟩ ∧
    waitForResult cbs (Res.UNKNOWN s :: rest) =
      ⟨[], .valueError ("Unknown status: " ++ s), rest⟩ ∧
    (∀ (ops : VMOps σ) (st : σ) (script : String) (wrest : List WireCmd),
      (ops.exec st script).2 = .ok () →
      commandLoop ops st (WireCmd.ok (Cmd.EXECUTE script) :: wrest) =
        (Res.SUCCESS HVal.pyNone ::
           (commandLoop ops (ops.exec st script).1 wrest).1,
         (commandLoop ops (ops.exec st script).1 wrest).2)) := by
  refine ⟨rfl, rfl, rfl, rfl, ?_⟩
  intro ops st script wrest h
  simp [commandLoop, h]

/-- Witness for C9 on concrete messages and a VM whose `execute`
succeeds. -/
theorem c9_witness :
    waitForResult cbsTest [Res.ERROR "bad"] = ⟨[], .runtimeError "bad", []⟩ ∧
    commandLoop (testVM (.ok ()) (.ok (HVal.int 1)) (.ok true)) ()
        [WireCmd.ok (Cmd.EXECUTE "x = 1")] =
      ([Res.SUCCESS HVal.pyNone], LoopExit.waiting) := by
  have h := c9_parent_status_mapping (σ := Unit) cbsTest HVal.pyNone "bad" "zz" []
  refine ⟨h.2.1, ?_⟩
  have h2 := h.2.2.2.2 (testVM (.ok ()) (.ok (HVal.int 1)) (.ok true)) ()
    "x = 1" [] rfl
  simpa [commandLoop] using h2

/-- C10: constructing with `memory_limit=0`, `instruction_limit=0` or
`cpu_limit=0` behaves exactly like leaving the option unset: zero is falsy,
so the corresponding VM keyword argument is omitted and no CPU rlimit step
runs. -/
theorem c10_zero_limits_are_unset (env : SysEnv) (fullIsolation : Bool)
    (uid gid : Option Int) (m i : Option Int) :
    initVMKwargs (Option.some 0) i = initVMKwargs Option.none i ∧
    initVMKwargs m (Option.some 0) = initVMKwargs m Option.none ∧
    (initVMKwargs (Option.some 0) i).memoryLimit = Option.none ∧
    (initVMKwargs m (Option.some 0)).instructionLimit = Option.none ∧
    setupIsolation env fullIsolation (Option.some 0) uid gid =
      setupIsolation env fullIsolation Option.none uid gid := by
  refine ⟨?_, ?_, ?_, ?_, ?_⟩ <;>
    simp [initVMKwargs, pyTruthy, setupIsolation]

/-- C1 counterexample: with `full_isolation=true` and a failing lockdown,
the worker posts nothing at all on the result queue (so in particular no
`CRITICAL` result) before dying: the exception propagates out of
`_setup_isolation`, which `_worker_loop` calls outside any `try`. -/
theorem c1_counterexample :
    (workerLoop ⟨false, false, false, false, true⟩
        (Except.ok (testVM (.ok ()) (.ok (HVal.int 0)) (.ok true), ()))
        true Option.none Option.none Option.none
        [WireCmd.ok Cmd.STOP]).1 = [] ∧
    (workerLoop ⟨false, false, false, false, true⟩
        (Except.ok (testVM (.ok ()) (.ok (HVal.int 0)) (.ok true), ()))
        true Option.none Option.none Option.none
        [WireCmd.ok Cmd.STOP]).2 = WorkerExit.crashedInIsolation :=
  ⟨rfl, rfl⟩

/-- C1 (amended): when `full_isolation=true` and the lockdown call fails,
the worker exits with the lockdown exception propagating uncaught — it
posts no result message whatsoever on the result queue. -/
theorem c1_lockdown_failure_exits_without_result {σ : Type} (env : SysEnv)
    (initRes : Except String (VMOps σ × σ)) (cpuLimit uid gid : Option Int)
    (cmds : List WireCmd) (h : env.lockdownFails = true) :
    workerLoop env initRes true cpuLimit uid gid cmds =
      ([], WorkerExit.crashedInIsolation) := by
  simp [workerLoop, setupIsolation, h]

/-- Witness for the amended C1 on a concrete environment and command
stream. -/
theorem c1_witness :
    workerLoop ⟨false, false, true, false, true⟩
        (Except.ok (testVM (.ok ()) (.ok (HVal.int 0)) (.ok true), ()))
        true (Option.some 1) (Option.some 1000) (Option.some 1000)
        [WireCmd.ok (Cmd.EXECUTE "x = 1")] =
      ([], WorkerExit.crashedInIsolation) :=
  c1_lockdown_failure_exits_without_result ⟨false, false, true, false, true⟩
    (Except.ok (testVM (.ok ()) (.ok (HVal.int 0)) (.ok true), ()))
    (Option.some 1) (Option.some 1000) (Option.some 1000)
    [WireCmd.ok (Cmd.EXECUTE "x = 1")] rfl

/-- C8: during worker startup the credential-drop steps are exactly a
`setgid` (present iff `gid` is given) followed by a `setuid` (present iff
`uid` is given), in that order; their failures never make the startup
raise, and with `full_isolation` the sequence still reaches the lockdown
step. -/
theorem c8_credential_drop_order (env : SysEnv) (fullIsolation : Bool)
    (cpuLimit uid gid : Option Int) :
    ((setupIsolation env fullIsolation cpuLimit uid gid).1.filter isCredEvent =
      (match gid with
       | Option.some g => [IsoEvent.setgidCall g (!env.setgidFails)]
       | Option.none => []) ++
      (match uid with
       | Option.some u => [IsoEvent.setuidCall u (!env.setuidFails)]
       | Option.none => [])) ∧
    (setupIsolation env fullIsolation cpuLimit uid gid).2 =
      (fullIsolation && env.lockdownFails) ∧
    (fullIsolation = true →
      IsoEvent.lockdownCall (!env.lockdownFails) ∈
        (setupIsolation env fullIsolation cpuLimit uid gid).1) := by
  refine ⟨?_, ?_, ?_⟩ <;>
  · cases fullIsolation <;> cases hL : env.lockdownFails <;>
      rcases gid with _ | gv <;> rcases uid with _ | uv <;>
      rcases cpuLimit with _ | cv <;>
      simp [setupIsolation, isCredEvent, hL]

/-- Witness for C8 with both credentials given and failing, a truthy CPU
limit and full isolation requested. -/
theorem c8_witness :
    ((setupIsolation ⟨false, false, true, true, false⟩ true (Option.some 2)
        (Option.some 1000) (Option.some 1001)).1.filter isCredEvent =
      [IsoEvent.setgidCall 1001 false, IsoEvent.setuidCall 1000 false]) ∧
    (setupIsolation ⟨false, false, true, true, false⟩ true (Option.some 2)
        (Option.some 1000) (Option.some 1001)).2 = false ∧
    IsoEvent.lockdownCall true ∈
      (setupIsolation ⟨false, false, true, true, false⟩ true (Option.some 2)
        (Option.some 1000) (Option.some 1001)).1 := by
  have h := c8_credential_drop_order ⟨false, false, true, true, false⟩ true
    (Option.some 2) (Option.some 1000) (Option.some 1001)
  exact ⟨h.1.trans rfl, h.2.1.trans rfl, by simpa using h.2.2 rfl⟩

/-- C4: a `CALLBACK(name, args)` observed mid-wait is always answered with
exactly one `CALLBACK_RESULT` command and the wait resumes with the same
outcome and remainder as without it: the reply is the callback's return
value when `name` is registered and returns, a string carrying the
exception text when it raises, and a not-found string when `name` is
unregistered; in no case does the parent raise or stop waiting. -/
theorem c4_callback_always_answered (cbs : CbTable) (name : String)
    (args : List HVal) (rest : List Res) :
    (∀ f v, lookupCb cbs name = Option.some f → f args = Except.ok v →
      waitForResult cbs (Res.CALLBACK name args :: rest) =
        ⟨Cmd.CALLBACK_RESULT v :: (waitForResult cbs rest).sent,
         (waitForResult cbs rest).out, (waitForResult cbs rest).rem⟩) ∧
    (∀ f e, lookupCb cbs name = Option.some f → f args = Except.error e →
      waitForResult cbs (Res.CALLBACK name args :: rest) =
        ⟨Cmd.CALLBACK_RESULT
            (HVal.str ("Error in callback " ++ name ++ ": " ++ e)) ::
           (waitForResult cbs rest).sent,
         (waitForResult cbs rest).out, (waitForResult cbs rest).rem⟩) ∧
    (lookupCb cbs name = Option.none →
      waitForResult cbs (Res.CALLBACK name args :: rest) =
        ⟨Cmd.CALLBACK_RESULT
            (HVal.str ("Callback '" ++ name ++ "' not found")) ::
           (waitForResult cbs rest).sent,
         (waitForResult cbs rest).out, (waitForResult cbs rest).rem⟩) := by
  refine ⟨?_, ?_, ?_⟩
  · intro f v hf hv; simp [waitForResult, hf, hv]
  · intro f e hf he; simp [waitForResult, hf, he]
  · intro hf; simp [waitForResult, hf]

/-- Witness for C4: a returning callback, a raising callback and a missing
name over the concrete table `cbsTest`. -/
theorem c4_witness :
    waitForResult cbsTest [Res.CALLBACK "f" [], Res.SUCCESS (HVal.int 1)] =
      ⟨[Cmd.CALLBACK_RESULT (HVal.int 7)], .ret (HVal.int 1), []⟩ ∧
    waitForResult cbsTest [Res.CALLBACK "g" []] =
      ⟨[Cmd.CALLBACK_RESULT
          (HVal.str ("Error in callback " ++ "g" ++ ": " ++ "boom"))],
       .blocked, []⟩ ∧
    waitForResult cbsTest [Res.CALLBACK "h" []] =
      ⟨[Cmd.CALLBACK_RESULT
          (HVal.str ("Callback '" ++ "h" ++ "' not found"))],
       .blocked, []⟩ := by
  refine ⟨?_, ?_, ?_⟩
  · have h := (c4_callback_always_answered cbsTest "f" []
      [Res.SUCCESS (HVal.int 1)]).1 (fun _ => Except.ok (HVal.int 7))
      (HVal.int 7) (by simp [lookupCb, cbsTest]) rfl
    exact h.trans rfl
  · have h := (c4_callback_always_answered cbsTest "g" [] []).2.1
      (fun _ => Except.error "boom") "boom" (by simp [lookupCb, cbsTest]) rfl
    exact h.trans rfl
  · have h := (c4_callback_always_answered cbsTest "h" [] []).2.2
      (by simp [lookupCb, cbsTest])
    exact h.trans rfl

/-- C7: `STOP` makes the worker leave the command loop with no result and
without touching later commands; `close` sends `STOP` and then joins the
child; a `STOP` arriving during a callback wait raises `SystemExit` in the
proxy, and a `SystemExit` escaping a dispatch ends the command loop
cleanly, with no result and no `CRITICAL`. -/
theorem c7_stop_terminates_cleanly {σ : Type} (ops : VMOps σ) (st : σ)
    (rest : List WireCmd) (script m : String) (k : List Cmd) :
    commandLoop ops st (WireCmd.ok Cmd.STOP :: rest) = ([], LoopExit.stopped) ∧
    closeActions = [ParentAction.send Cmd.STOP, ParentAction.joinChild] ∧
    proxyWait (Cmd.STOP :: k) =
      (ProxyOutcome.raisedSysExit "Worker stopped during callback", k) ∧
    ((ops.exec st script).2 = Except.error (.sysExit m) →
      commandLoop ops st (WireCmd.ok (Cmd.EXECUTE script) :: rest) =
        ([], LoopExit.sysExited)) := by
  refine ⟨rfl, rfl, rfl, ?_⟩
  intro h
  simp [commandLoop, h]

/-- Witness for C7: a concrete VM whose `execute` raises `SystemExit`
(as the proxy does on `STOP`), with pending commands behind it. -/
theorem c7_witness :
    commandLoop
        (testVM (Except.error (.sysExit "Worker stopped during callback"))
          (.ok (HVal.int 0)) (.ok true)) ()
        [WireCmd.ok (Cmd.EXECUTE "r = cb()"), WireCmd.ok Cmd.STOP] =
      ([], LoopExit.sysExited) :=
  (c7_stop_terminates_cleanly
    (testVM (Except.error (.sysExit "Worker stopped during callback"))
      (.ok (HVal.int 0)) (.ok true)) () [WireCmd.ok Cmd.STOP]
    "r = cb()" "Worker stopped during callback" []).2.2.2 rfl

/-- In the worker's command loop a `CRITICAL` result can only originate
from an error outside the per-command handlers (a bad wire message), and
the loop exits right after posting it. -/
theorem commandLoop_critical_only_from_bad {σ : Type} (ops : VMOps σ) :
    ∀ (cmds : List WireCmd) (st : σ) (mc : String),
      Res.CRITICAL mc ∈ (commandLoop ops st cmds).1 →
      WireCmd.bad mc ∈ cmds ∧ (commandLoop ops st cmds).2 = LoopExit.crashed := by
  intro cmds
  induction cmds with
  | nil => intro st mc h; simp [commandLoop] at h
  | cons wc rest ih =>
    intro st mc h
    cases wc with
    | bad m =>
      simp [commandLoop] at h
      subst h
      simp [commandLoop]
    | ok c =>
      cases c with
      | STOP => simp [commandLoop] at h
      | CALLBACK_RESULT v =>
        have h' := ih st mc (by simpa [commandLoop] using h)
        exact ⟨List.mem_cons_of_mem _ h'.1, by simpa [commandLoop] using h'.2⟩
      | EXECUTE script =>
        cases hd : (ops.exec st script).2 with
        | ok u =>
          simp [commandLoop, hd] at h
          have h' := ih _ mc h
          exact ⟨List.mem_cons_of_mem _ h'.1, by simpa [commandLoop, hd] using h'.2⟩
        | error er =>
          cases er with
          | exc m' =>
            simp [commandLoop, hd] at h
            have h' := ih _ mc h
            exact ⟨List.mem_cons_of_mem _ h'.1, by simpa [commandLoop, hd] using h'.2⟩
          | sysExit m' => simp [commandLoop, hd] at h
      | CALL nm args =>
        cases hd : (ops.call st nm args).2 with
        | ok u =>
          simp [commandLoop, hd] at h
          have h' := ih _ mc h
          exact ⟨List.mem_cons_of_mem _ h'.1, by simpa [commandLoop, hd] using h'.2⟩
        | error er =>
          cases er with
          | exc m' =>
            simp [commandLoop, hd] at h
            have h' := ih _ mc h
            exact ⟨List.mem_cons_of_mem _ h'.1, by simpa [commandLoop, hd] using h'.2⟩
          | sysExit m' => simp [commandLoop, hd] at h
      | FUNCTION_EXISTS nm =>
        cases hd : (ops.fnEx st nm).2 with
        | ok u =>
          simp [commandLoop, hd] at h
          have h' := ih _ mc h
          exact ⟨List.mem_cons_of_mem _ h'.1, by simpa [commandLoop, hd] using h'.2⟩
        | error er =>
          cases er with
          | exc m' =>
            simp [commandLoop, hd] at h
            have h' := ih _ mc h
            exact ⟨List.mem_cons_of_mem _ h'.1, by simpa [commandLoop, hd] using h'.2⟩
          | sysExit m' => simp [commandLoop, hd] at h

/-- C5: a recoverable exception raised while dispatching an `EXECUTE`,
`CALL` or `FUNCTION_EXISTS` command makes the worker post exactly one
`ERROR` result carrying the exception's string and continue the loop on
the remaining commands; a `CRITICAL` result arises only from an error
outside the per-command handlers and is followed by loop exit. -/
theorem c5_recoverable_errors_keep_loop_alive {σ : Type} (ops : VMOps σ)
    (st : σ) (rest : List WireCmd) (script fname : String)
    (args : List HVal) (m : String) :
    ((ops.exec st script).2 = Except.error (.exc m) →
      commandLoop ops st (WireCmd.ok (Cmd.EXECUTE script) :: rest) =
        (Res.ERROR m :: (commandLoop ops (ops.exec st script).1 rest).1,
         (commandLoop ops (ops.exec st script).1 rest).2)) ∧
    ((ops.call st fname args).2 = Except.error (.exc m) →
      commandLoop ops st (WireCmd.ok (Cmd.CALL fname args) :: rest) =
        (Res.ERROR m :: (commandLoop ops (ops.call st fname args).1 rest).1,
         (commandLoop ops (ops.call st fname args).1 rest).2)) ∧
    ((ops.fnEx st fname).2 = Except.error (.exc m) →
      commandLoop ops st (WireCmd.ok (Cmd.FUNCTION_EXISTS fname) :: rest) =
        (Res.ERROR m :: (commandLoop ops (ops.fnEx st fname).1 rest).1,
         (commandLoop ops (ops.fnEx st fname).1 rest).2)) ∧
    (∀ (st2 : σ) (cmds : List WireCmd) (mc : String),
      Res.CRITICAL mc ∈ (commandLoop ops st2 cmds).1 →
      WireCmd.bad mc ∈ cmds ∧
        (commandLoop ops st2 cmds).2 = LoopExit.crashed) := by
  refine ⟨?_, ?_, ?_,
    fun st2 cmds mc h => commandLoop_critical_only_from_bad ops cmds st2 mc h⟩ <;>
  · intro h; simp [commandLoop, h]

/-- Witness for C5: a VM raising on every dispatch still serves the whole
command stream, one `ERROR` per command, and stops only at `STOP`. -/
theorem c5_witness :
    commandLoop
        (testVM (Except.error (.exc "attempt to call a nil value"))
          (.ok (HVal.int 0)) (Except.error (.exc "boom"))) ()
        [WireCmd.ok (Cmd.EXECUTE "os.exit()"),
         WireCmd.ok (Cmd.FUNCTION_EXISTS "f"),
         WireCmd.ok Cmd.STOP] =
      ([Res.ERROR "attempt to call a nil value", Res.ERROR "boom"],
       LoopExit.stopped) := by
  have h := (c5_recoverable_errors_keep_loop_alive
    (testVM (Except.error (.exc "attempt to call a nil value"))
      (.ok (HVal.int 0)) (Except.error (.exc "boom"))) ()
    [WireCmd.ok (Cmd.FUNCTION_EXISTS "f"), WireCmd.ok Cmd.STOP]
    "os.exit()" "f" [] "attempt to call a nil value").1 rfl
  exact h.trans rfl

/-- A parent-side wait consumes a prefix of `CALLBACK` messages followed by
exactly one terminal message (unless the stream runs out), answers each
consumed `CALLBACK` with one `CALLBACK_RESULT` command and nothing else,
and leaves every later message unconsumed. -/
theorem waitForResult_decomposition (cbs : CbTable) :
    ∀ rs : List Res, (waitForResult cbs rs).out = WaitOutcome.blocked ∨
      ∃ pre t, rs = pre ++ t :: (waitForResult cbs rs).rem ∧
        (∀ r ∈ pre, isCallbackRes r = true) ∧
        isCallbackRes t = false ∧
        (∀ c ∈ (waitForResult cbs rs).sent, ∃ v, c = Cmd.CALLBACK_RESULT v) ∧
        (waitForResult cbs rs).sent.length = pre.length := by
  intro rs
  induction rs with
  | nil => exact Or.inl rfl
  | cons r rest ih =>
    cases r with
    | SUCCESS v =>
      exact Or.inr ⟨[], Res.SUCCESS v, rfl, by simp, rfl,
        by simp [waitForResult], rfl⟩
    | ERROR m =>
      exact Or.inr ⟨[], Res.ERROR m, rfl, by simp, rfl,
        by simp [waitForResult], rfl⟩
    | CRITICAL m =>
      exact Or.inr ⟨[], Res.CRITICAL m, rfl, by simp, rfl,
        by simp [waitForResult], rfl⟩
    | UNKNOWN s =>
      exact Or.inr ⟨[], Res.UNKNOWN s, rfl, by simp, rfl,
        by simp [waitForResult], rfl⟩
    | CALLBACK n a =>
      rcases ih with hb | ⟨pre, t, heq, hpre, ht, hsent, hlen⟩
      · exact Or.inl (by simpa [waitForResult] using hb)
      · refine Or.inr ⟨Res.CALLBACK n a :: pre, t, ?_, ?_, ht, ?_, ?_⟩
        · simpa [waitForResult] using
            congrArg (List.cons (Res.CALLBACK n a)) heq
        · intro r hr
          rcases List.mem_cons.mp hr with h | h
          · subst h; rfl
          · exact hpre r h
        · intro c hc
          simp only [waitForResult] at hc
          rcases List.mem_cons.mp hc with h | h
          · exact ⟨_, h⟩
          · exact hsent c h
        · simpa [waitForResult] using hlen

/-- C6: each public operation transmits exactly one command followed only
by `CALLBACK_RESULT` replies; its wait consumes a prefix of `CALLBACK`
messages (each answered once) ending at the first terminal
`SUCCESS`/`ERROR`/`CRITICAL` result and leaves all later result messages
for the next operation, so results of sequential operations never
interleave. -/
theorem c6_operations_serialized (cbs : CbTable) (script nm nm2 : String)
    (args : List HVal) (rs : List Res)
    (hout : (waitForResult cbs rs).out ≠ WaitOutcome.blocked)
    (hwf : ∀ s, Res.UNKNOWN s ∉ rs)
    (hargs : picklableList args = true) :
    (executeOp cbs script rs).1 =
      Cmd.EXECUTE script :: (waitForResult cbs rs).sent ∧
    (callOp cbs nm args rs).1 =
      Cmd.CALL nm args :: (waitForResult cbs rs).sent ∧
    (functionExistsOp cbs nm2 rs).1 =
      Cmd.FUNCTION_EXISTS nm2 :: (waitForResult cbs rs).sent ∧
    (∀ c ∈ (waitForResult cbs rs).sent, ∃ v, c = Cmd.CALLBACK_RESULT v) ∧
    ∃ pre t, rs = pre ++ t :: (waitForResult cbs rs).rem ∧
      (∀ r ∈ pre, ∃ n a, r = Res.CALLBACK n a) ∧
      ((∃ v, t = Res.SUCCESS v) ∨ (∃ m, t = Res.ERROR m) ∨
        (∃ m, t = Res.CRITICAL m)) ∧
      (waitForResult cbs rs).sent.length = pre.length := by
  rcases waitForResult_decomposition cbs rs with hb | ⟨pre, t, heq, hpre, ht, hsent, hlen⟩
  · exact absurd hb hout
  · refine ⟨rfl, by simp [callOp, cmdTransmittable, hargs], rfl, hsent,
      pre, t, heq, ?_, ?_, hlen⟩
    · intro r hr
      have hc := hpre r hr
      cases r with
      | CALLBACK n a => exact ⟨n, a, rfl⟩
      | SUCCESS v => exact absurd hc (by simp [isCallbackRes])
      | ERROR m => exact absurd hc (by simp [isCallbackRes])
      | CRITICAL m => exact absurd hc (by simp [isCallbackRes])
      | UNKNOWN s => exact absurd hc (by simp [isCallbackRes])
    · have htmem : t ∈ rs := by
        rw [heq]; exact List.mem_append_right _ (List.mem_cons_self _ _)
      cases t with
      | SUCCESS v => exact Or.inl ⟨v, rfl⟩
      | ERROR m => exact Or.inr (Or.inl ⟨m, rfl⟩)
      | CRITICAL m => exact Or.inr (Or.inr ⟨m, rfl⟩)
      | CALLBACK n a => simp [isCallbackRes] at ht
      | UNKNOWN s => exact absurd htmem (hwf s)

/-- Witness for C6: an `execute` whose script performs one callback and
then succeeds transmits exactly the `EXECUTE` command and one
`CALLBACK_RESULT`. -/
theorem c6_witness :
    (executeOp cbsTest "r = f()"
        [Res.CALLBACK "f" [], Res.SUCCESS HVal.pyNone]).1 =
      [Cmd.EXECUTE "r = f()", Cmd.CALLBACK_RESULT (HVal.int 7)] := by
  have h := c6_operations_serialized cbsTest "r = f()" "mul" "g"
    [HVal.int 2] [Res.CALLBACK "f" [], Res.SUCCESS HVal.pyNone]
    (by simp [waitForResult, lookupCb, cbsTest])
    (by intro s; simp) rfl
  exact h.1.trans rfl

end Luaward
